import Mathlib

/-!
Verification of the run-lifecycle and stage-scheduling engine of the
photogram-proj pipeline (MARK-2): checkpoint store, tool execution
authority, run registry, and the two orchestrators.

The Python sources are shallowly embedded: dictionaries become
insertion-ordered association lists, the filesystem and the process
search path become explicit oracles, subprocess spawning becomes an
oracle from command lines to exit codes and captured output, and
raising becomes `Except.error`.
-/

namespace Photogram

/-- Insertion-ordered association list, modelling a Python `dict`
with string keys. -/
abbrev StrMap (α : Type) : Type := List (String × α)

/-- `d.get(k)` on a Python dict: first binding of `k`, if any. -/
def StrMap.find? {α : Type} : StrMap α → String → Option α
  | [], _ => none
  | (k, v) :: rest, key => if k = key then some v else StrMap.find? rest key

/-- `d[k] = v` on a Python dict: replace in place, or append a new binding. -/
def StrMap.setKey {α : Type} : StrMap α → String → α → StrMap α
  | [], key, v => [(key, v)]
  | (k, w) :: rest, key, v =>
      if k = key then (key, v) :: rest else (k, w) :: StrMap.setKey rest key v

/-- `d.setdefault(k, v)` on a Python dict: insert only when absent. -/
def StrMap.setDefault (m : StrMap String) (key v : String) : StrMap String :=
  if (StrMap.find? m key).isSome then m else m ++ [(key, v)]

instance {ε α : Type} [DecidableEq ε] [DecidableEq α] : DecidableEq (Except ε α) :=
  fun x y =>
    match x, y with
    | Except.ok a, Except.ok b =>
        if h : a = b then Decidable.isTrue (by rw [h])
        else Decidable.isFalse (by intro hc; cases hc; exact h rfl)
    | Except.ok _, Except.error _ =>
        Decidable.isFalse (by intro hc; cases hc)
    | Except.error _, Except.ok _ =>
        Decidable.isFalse (by intro hc; cases hc)
    | Except.error e, Except.error f =>
        if h : e = f then Decidable.isTrue (by rw [h])
        else Decidable.isFalse (by intro hc; cases hc; exact h rfl)

/- ------------------------------------------------------------------
RunContext checkpoints (src/runs/run_context.py).

The checkpoints file on disk is modelled as
  `none`            : the file does not exist;
  `some none`       : the file exists but its contents do not parse
                      (json.load raises);
  `some (some m)`   : the file exists and parses to the map `m`.
------------------------------------------------------------------ -/

/-- State of the per-run checkpoints file. -/
abbrev CkFile : Type := Option (Option (StrMap String))

/-- `RunContext.mark_stage(stage, status)`: raises when the file is
missing; `json.load` raises when the contents do not parse; otherwise
sets `data[stage] = status` and writes the document back. -/
def mark_stage (file : CkFile) (stage status : String) : Except String CkFile :=
  match file with
  | none => Except.error ("Checkpoints file missing")
  | some none => Except.error ("json.load: checkpoint contents not parseable")
  | some (some data) => Except.ok (some (some (StrMap.setKey data stage status)))

/-- `RunContext.stage_done(stage)`: `false` when the file is missing;
`json.load` raises when the contents do not parse; otherwise
`data.get(stage) == "done"`. -/
def stage_done (file : CkFile) (stage : String) : Except String Bool :=
  match file with
  | none => Except.ok false
  | some none => Except.error ("json.load: checkpoint contents not parseable")
  | some (some data) =>
      Except.ok (decide (StrMap.find? data stage = some ("done")))

/- ------------------------------------------------------------------
Legacy pipeline checkpoint (src/checkpoint.py).

Its document is `{"last_completed_step": ..., "outputs": {...}}`; the
file state uses the same three-way encoding as `CkFile`.
------------------------------------------------------------------ -/

/-- Parsed document of src/checkpoint.py. -/
structure CkDoc where
  last_completed_step : Option String
  outputs : StrMap String
deriving DecidableEq

/-- State of the legacy pipeline checkpoint file. -/
abbrev PipeCkFile : Type := Option (Option CkDoc)

/-- `load_checkpoint()` from src/checkpoint.py: when the file does not
exist it is first created holding the empty document; then `json.load`
reads it, raising on non-parseable contents.  Returns the possibly
created file state together with the loaded document. -/
def load_checkpoint (file : PipeCkFile) : Except String (PipeCkFile × CkDoc) :=
  match file with
  | none => Except.ok (some (some ⟨none, []⟩), ⟨none, []⟩)
  | some none => Except.error ("json.load: checkpoint contents not parseable")
  | some (some doc) => Except.ok (some (some doc), doc)

/- ------------------------------------------------------------------
ToolRunner (src/tool_runner.py).
------------------------------------------------------------------ -/

/-- One entry of the `tools` section of the configuration: either a
bare executable string or a nested table, as in
`entry["executable"] if isinstance(entry, dict) else entry`. -/
inductive ToolEntry : Type where
  | plain (exe : String)
  | table (entries : StrMap String)
deriving DecidableEq

/-- Oracle for `Path(exe).exists()` (queried on absolute paths) and
`shutil.which(exe) is not None` (queried on bare names). -/
structure FsOracle : Type where
  pathExists : String → Bool
  onPath : String → Bool

/-- `Path(exe).is_absolute()` on a POSIX system: the path starts with
the path separator. -/
def is_absolute (s : String) : Bool :=
  match s.data with
  | [] => false
  | c :: _ => c = '/'

/-- Python `str.lower()`: lowercase every character. -/
def str_lower (s : String) : String := String.mk (List.map Char.toLower s.data)

/-- `ToolRunner._validate_exe(exe)`: an absolute path must exist; a
bare name must resolve on the process search path. -/
def validate_exe (fs : FsOracle) (exe : String) : Except String Unit :=
  if is_absolute exe then
    if fs.pathExists exe then Except.ok () else
      Except.error ("Executable not found: " ++ exe)
  else
    if fs.onPath exe then Except.ok () else
      Except.error ("Executable not on PATH: " ++ exe)

/-- Boolean form of `validate_exe` succeeding. -/
def exe_ok (fs : FsOracle) (exe : String) : Bool :=
  if is_absolute exe then fs.pathExists exe else fs.onPath exe

/-- The executables carried by one tools-table entry
(`entry.values()` for a dict entry, the entry itself otherwise). -/
def ToolEntry.exes : ToolEntry → List String
  | ToolEntry.plain e => [e]
  | ToolEntry.table m => List.map Prod.snd m

/-- All executables of the tools section, in iteration order, as
walked by `ToolRunner._validate_tools`. -/
def configured_exes : StrMap ToolEntry → List String
  | [] => []
  | (_, e) :: rest => ToolEntry.exes e ++ configured_exes rest

/-- Sequential validation of a list of executables, stopping at the
first failure, as raising does in `_validate_tools`. -/
def validate_list (fs : FsOracle) : List String → Except String Unit
  | [] => Except.ok ()
  | e :: rest =>
      match validate_exe fs e with
      | Except.error msg => Except.error msg
      | Except.ok _ => validate_list fs rest

/-- The `execution` section of the configuration; defaults are those of
`exec_cfg.get("use_gpu", True)` and `exec_cfg.get("dry_run", False)`. -/
structure ExecCfg : Type where
  use_gpu : Bool := true
  dry_run : Bool := false
deriving DecidableEq

/-- Configuration handed to `ToolRunner.__init__`. -/
structure ToolCfg : Type where
  execution : ExecCfg
  tools : StrMap ToolEntry
deriving DecidableEq

/-- `ToolRunner.__init__`: stores the configuration and eagerly runs
`_validate_tools`, raising when any configured executable is invalid. -/
def ToolRunner_construct (fs : FsOracle) (config : ToolCfg) :
    Except String ToolCfg :=
  match validate_list fs (configured_exes config.tools) with
  | Except.error msg => Except.error msg
  | Except.ok _ => Except.ok config

/-- `ToolRunner._resolve_executable(tool)`: lowercase the name, look it
up in the tools section (taking `entry["executable"]` from a table
entry), fall back to the nested `openmvs` table, then check the
executable the same way `_validate_exe` does.  Every raising path of
the Python code becomes `Except.error`. -/
def resolve_executable (fs : FsOracle) (tools : StrMap ToolEntry)
    (tool : String) : Except String String :=
  let tool := str_lower tool
  let exe? : Except String String :=
    match StrMap.find? tools tool with
    | some (ToolEntry.plain e) => Except.ok e
    | some (ToolEntry.table m) =>
        match StrMap.find? m ("executable") with
        | some e => Except.ok e
        | none => Except.error ("KeyError: executable")
    | none =>
        match StrMap.find? tools ("openmvs") with
        | some (ToolEntry.table m) =>
            match StrMap.find? m tool with
            | some e => Except.ok e
            | none => Except.error ("Tool not defined in config: " ++ tool)
        | some (ToolEntry.plain _) =>
            Except.error ("TypeError: string tools entry is not indexable")
        | none => Except.error ("Tool not defined in config: " ++ tool)
  match exe? with
  | Except.error msg => Except.error msg
  | Except.ok exe =>
      match validate_exe fs exe with
      | Except.error msg => Except.error msg
      | Except.ok _ => Except.ok exe

/-- The child-process environment built by `ToolRunner.run`:
`env = os.environ.copy()`; with the accelerator disabled,
`env["CUDA_VISIBLE_DEVICES"] = ""`; otherwise
`env.setdefault("CUDA_VISIBLE_DEVICES", os.environ.get("CUDA_VISIBLE_DEVICES", ""))`. -/
def child_env (cfg : ExecCfg) (os_environ : StrMap String) : StrMap String :=
  if cfg.use_gpu = false then
    StrMap.setKey os_environ ("CUDA_VISIBLE_DEVICES") ("")
  else
    StrMap.setDefault os_environ ("CUDA_VISIBLE_DEVICES")
      ((StrMap.find? os_environ ("CUDA_VISIBLE_DEVICES")).getD (""))

/-- `subprocess.CompletedProcess` as observed by callers: exit code and
captured combined stdout+stderr. -/
structure ProcResult : Type where
  returncode : Nat
  stdout : String
deriving DecidableEq

/-- One spawned child process: command line, environment, working
directory. -/
structure Spawn : Type where
  cmd : List String
  env : StrMap String
  cwd : Option String
deriving DecidableEq

/-- Oracle for `subprocess.run`: exit code and combined output of a
given command line under a given environment. -/
abbrev Subproc : Type := List String → StrMap String → Nat × String

/-- Observable outcome of one `ToolRunner.run` call: log lines emitted,
processes spawned, and the returned value or raised error.
A `Except.ok none` result is the `return None` of the dry-run path. -/
structure RunOutcome : Type where
  logs : List String
  spawned : List Spawn
  result : Except String (Option ProcResult)

/-- `ToolRunner.run(tool, args, cwd, check)`.  Resolution errors
propagate; the command line is logged; on dry run nothing is spawned
and `None` is returned; otherwise the process runs synchronously and a
non-zero exit with `check` raises `ToolExecutionError` carrying the
command line. -/
def ToolRunner_run (fs : FsOracle) (config : ToolCfg) (sub : Subproc)
    (os_environ : StrMap String) (tool : String) (args : List String)
    (cwd : Option String) (check : Bool) : RunOutcome :=
  match resolve_executable fs config.tools tool with
  | Except.error msg => { logs := [], spawned := [], result := Except.error msg }
  | Except.ok exe =>
      let cmd := exe :: args
      let env := child_env config.execution os_environ
      let cmd_str := String.intercalate (" ") cmd
      let logs := [("[tool:" ++ tool ++ "] CMD: " ++ cmd_str)]
      if config.execution.dry_run then
        { logs := logs ++ [("[tool:" ++ tool ++ "] DRY RUN - skipped")],
          spawned := [], result := Except.ok none }
      else
        let r := sub cmd env
        let procs := [Spawn.mk cmd env cwd]
        if check ∧ r.1 ≠ 0 then
          { logs := logs ++ [("[tool:" ++ tool ++ "] FAILED"), r.2],
            spawned := procs, result := Except.error cmd_str }
        else
          { logs := logs ++ [("[tool:" ++ tool ++ "] DONE")],
            spawned := procs,
            result := Except.ok (some (ProcResult.mk r.1 r.2)) }

/- ------------------------------------------------------------------
RunContext lifecycle and RunManager (src/runs/run_context.py,
src/runs/run_manager.py).
------------------------------------------------------------------ -/

/-- The run manifest document written to `run.json` at run start
(`RunContext.initialize`); finalization fields are absent initially. -/
structure Manifest : Type where
  run_id : String
  status : String
  started_at : String
  project_root : String
  input_path : String
  pipeline : String
deriving DecidableEq

/-- The path-valued fields a `RunContext` computes in `__init__` from
`runs_root` and the generated run id. -/
structure RC : Type where
  run_id : String
  root : String
  logs : String
  checkpoints : String
  manifest : String
deriving DecidableEq

/-- `RunContext.__init__(runs_root)`, with the generated
timestamp-plus-suffix run id supplied as a parameter. -/
def RC.new (runs_root run_id : String) : RC :=
  { run_id := run_id,
    root := runs_root ++ ("/") ++ run_id,
    logs := runs_root ++ ("/") ++ run_id ++ ("/logs"),
    checkpoints := runs_root ++ ("/") ++ run_id ++ ("/checkpoints.json"),
    manifest := runs_root ++ ("/") ++ run_id ++ ("/run.json") }

/-- Filesystem state relevant to the run registry: the set of existing
directories, the manifest files, the checkpoint files, and the
symlinks maintained by `RunManager.start_run`. -/
structure FS : Type where
  dirs : List String
  manifests : StrMap Manifest
  ckfiles : StrMap (Option (StrMap String))
  symlinks : StrMap String
deriving DecidableEq

/-- `RunContext.initialize(project_root, input_path)`: raises when the
run root already exists; otherwise creates `root` and `root/logs`,
writes the initial manifest with status `running` and the start
timestamp, and writes an empty checkpoint document.  The wall-clock
timestamp is supplied as `now`. -/
def RC.initRun (ctx : RC) (project_root input_path now : String)
    (fs : FS) : Except String FS :=
  if ctx.root ∈ fs.dirs then
    Except.error ("Run already exists: " ++ ctx.root)
  else
    Except.ok
      { dirs := ctx.root :: ctx.logs :: fs.dirs,
        manifests := StrMap.setKey fs.manifests ctx.manifest
          { run_id := ctx.run_id, status := ("running"), started_at := now,
            project_root := project_root, input_path := input_path,
            pipeline := ("MARK-2") },
        ckfiles := StrMap.setKey fs.ckfiles ctx.checkpoints (some []),
        symlinks := fs.symlinks }

/-- `RunManager` state: the runs root from `ProjectPaths` and the
optional active run. -/
structure RM : Type where
  runs_root : String
  active_run : Option RC
deriving DecidableEq

/-- `RunManager.start_run(project_root, input_path, output_path)`.
Raises an active-run error first when a run is already active;
otherwise builds a fresh `RunContext` (run id supplied), initializes
it, and optionally replaces the `output_path/runs` symlink.  The
returned pair carries the manager and filesystem states after the
call; on error both are unchanged, as a Python exception leaves them. -/
def RM.start_run (rm : RM) (run_id project_root input_path : String)
    (output_path : Option String) (now : String) (fs : FS) :
    (RM × FS) × Except String RC :=
  match rm.active_run with
  | some _ => ((rm, fs), Except.error ("A run is already active"))
  | none =>
      let ctx := RC.new rm.runs_root run_id
      match RC.initRun ctx project_root input_path now fs with
      | Except.error msg => ((rm, fs), Except.error msg)
      | Except.ok fs1 =>
          let fs2 :=
            match output_path with
            | none => fs1
            | some op =>
                { fs1 with symlinks :=
                    StrMap.setKey fs1.symlinks (op ++ ("/runs")) rm.runs_root }
          (({ rm with active_run := some ctx }, fs2), Except.ok ctx)

/- ------------------------------------------------------------------
The two orchestrators (src/runner.py, src/orches.py).

A stage behaviour is what one invocation of the stage function does:
`Except.error msg` models the stage raising, `Except.ok r` models it
returning `r` (Python `None` or a result value).
------------------------------------------------------------------ -/

/-- Outcome of invoking one pipeline stage function. -/
abbrev StageBeh : Type := Except String (Option String)

/-- The stage loop of `run_pipeline_from_args` (src/runner.py, step 6):
every stage function is called as `func(project_root, force)` in
declared order; the first exception is re-raised as
`RuntimeError("Pipeline aborted at stage: ...")` and no later stage
runs.  Returns the list of invocations performed, each recording the
`force` flag that was passed to the stage, with the final result. -/
def run_pipeline_stages (force : Bool) :
    List (String × StageBeh) → List (String × Bool) × Except String Unit
  | [] => ([], Except.ok ())
  | (name, beh) :: rest =>
      match beh with
      | Except.error _ =>
          ([(name, force)], Except.error ("Pipeline aborted at stage: " ++ name))
      | Except.ok _ =>
          let r := run_pipeline_stages force rest
          ((name, force) :: r.1, r.2)

/-- The step loop of `orchestrate_pipeline` (src/orches.py): a step is
skipped iff its name is a key of the loaded checkpoint; otherwise the
step function runs, a raising step is caught (logged) and the loop
returns early, and a returning step stores
`result if result is not None else "done"` in the checkpoint.
Returns (names invoked, final checkpoint, halted-by-exception flag). -/
def orchestrate_steps (cp : StrMap String) :
    List (String × StageBeh) → List String × StrMap String × Bool
  | [] => ([], cp, false)
  | (name, beh) :: rest =>
      if (StrMap.find? cp name).isSome then
        orchestrate_steps cp rest
      else
        match beh with
        | Except.error _ => ([name], cp, true)
        | Except.ok r =>
            let out := r.getD ("done")
            let rec1 := orchestrate_steps (StrMap.setKey cp name out) rest
            (name :: rec1.1, rec1.2.1, rec1.2.2)

/-- Whether a stage behaviour is a normal return (no exception). -/
def isOkBeh : StageBeh → Bool
  | Except.ok _ => true
  | Except.error _ => false

/-- `orchestrate_pipeline` as its caller observes it: the try/except
around each step catches every stage exception, logs it and returns
`None`, so the function always returns normally (never raises) — hence
the result is always `Except.ok`, carrying the invoked stages and the
final checkpoint.  No run manifest is read or written anywhere in
src/orches.py. -/
def orchestrate_pipeline (cp : StrMap String)
    (steps : List (String × StageBeh)) :
    Except String (List String × StrMap String) :=
  let r := orchestrate_steps cp steps
  Except.ok (r.1, r.2.1)

/- ------------------------------------------------------------------
Helper lemmas about StrMap.
------------------------------------------------------------------ -/

theorem StrMap.find?_setKey_self {α : Type} (m : StrMap α) (k : String) (v : α) :
    StrMap.find? (StrMap.setKey m k v) k = some v := by
  induction m with
  | nil => simp [StrMap.setKey, StrMap.find?]
  | cons hd tl ih =>
      obtain ⟨a, b⟩ := hd
      by_cases h : a = k
      · simp [StrMap.setKey, StrMap.find?, h]
      · simp [StrMap.setKey, StrMap.find?, h, ih]

theorem StrMap.find?_setKey_ne {α : Type} (m : StrMap α) (k key : String) (v : α)
    (h : k ≠ key) :
    StrMap.find? (StrMap.setKey m k v) key = StrMap.find? m key := by
  induction m with
  | nil => simp [StrMap.setKey, StrMap.find?, h]
  | cons hd tl ih =>
      obtain ⟨a, b⟩ := hd
      by_cases h1 : a = k
      · subst h1
        simp [StrMap.setKey, StrMap.find?, h]
      · by_cases h2 : a = key
        · simp [StrMap.setKey, StrMap.find?, h1, h2, Ne.symm h]
        · simp [StrMap.setKey, StrMap.find?, h1, h2, ih]

theorem StrMap.find?_append_of_none {α : Type} (m1 m2 : StrMap α) (key : String)
    (h : StrMap.find? m1 key = none) :
    StrMap.find? (m1 ++ m2) key = StrMap.find? m2 key := by
  induction m1 with
  | nil => simp
  | cons hd tl ih =>
      obtain ⟨a, b⟩ := hd
      by_cases h1 : a = key
      · simp [StrMap.find?, h1] at h
      · simp [StrMap.find?, h1] at h ⊢
        exact ih h

theorem StrMap.setKey_eq_append_of_none {α : Type} (m : StrMap α) (k : String) (v : α)
    (h : StrMap.find? m k = none) :
    StrMap.setKey m k v = m ++ [(k, v)] := by
  induction m with
  | nil => simp [StrMap.setKey]
  | cons hd tl ih =>
      obtain ⟨a, b⟩ := hd
      by_cases h1 : a = k
      · simp [StrMap.find?, h1] at h
      · simp [StrMap.find?, h1] at h
        simp [StrMap.setKey, h1, ih h]

theorem List.filter_ext_mem {α : Type} (p q : α → Bool) (l : List α)
    (h : ∀ a ∈ l, p a = q a) : List.filter p l = List.filter q l := by
  induction l with
  | nil => rfl
  | cons hd tl ih =>
      have hhd := h hd (by simp)
      have htl : ∀ a ∈ tl, p a = q a := fun a ha => h a (by simp [ha])
      simp [List.filter, hhd, ih htl]

/- ------------------------------------------------------------------
Claim theorems.
------------------------------------------------------------------ -/

/-- C6: stage_done is true exactly on a checkpoint entry with value
"done": it is false for a never-marked stage and for a stage marked
with any other value, it is true immediately after marking the stage
done, and it is unchanged by marks to unrelated stages. -/
theorem stage_done_spec (m : StrMap String) (s t v status : String) :
    stage_done (some (some m)) s
        = Except.ok (decide (StrMap.find? m s = some ("done")))
    ∧ (StrMap.find? m s = none → stage_done (some (some m)) s = Except.ok false)
    ∧ (v ≠ ("done") →
        stage_done (some (some (StrMap.setKey m s v))) s = Except.ok false)
    ∧ (∀ file1 file2 : CkFile, mark_stage file1 s ("done") = Except.ok file2 →
        stage_done file2 s = Except.ok true)
    ∧ (t ≠ s → stage_done (some (some (StrMap.setKey m t status))) s
        = stage_done (some (some m)) s) := by
  refine ⟨rfl, ?_, ?_, ?_, ?_⟩
  · intro h
    simp [stage_done, h]
  · intro hv
    simp [stage_done, StrMap.find?_setKey_self, hv]
  · intro file1 file2 hmark
    match file1 with
    | none => simp [mark_stage] at hmark
    | some none => simp [mark_stage] at hmark
    | some (some data) =>
        simp [mark_stage] at hmark
        subst hmark
        simp [stage_done, StrMap.find?_setKey_self]
  · intro hts
    simp [stage_done, StrMap.find?_setKey_ne m t s status hts]

/-- Witness for C6 at concrete inputs: an empty checkpoint has no
stage done, a stage marked "failed" is not done, a stage marked done
is done, and a mark on an unrelated stage does not affect it. -/
theorem stage_done_spec_witness :
    stage_done (some (some ([] : StrMap String))) ("s1") = Except.ok false
    ∧ stage_done (some (some (StrMap.setKey [] ("s1") ("failed")))) ("s1")
        = Except.ok false
    ∧ stage_done (some (some (StrMap.setKey [] ("s1") ("done")))) ("s1")
        = Except.ok true
    ∧ stage_done (some (some (StrMap.setKey [] ("s2") ("x")))) ("s1")
        = stage_done (some (some ([] : StrMap String))) ("s1") := by
  refine ⟨?_, ?_, ?_, ?_⟩
  · exact (stage_done_spec [] ("s1") ("s2") ("failed") ("x")).2.1 rfl
  · exact (stage_done_spec [] ("s1") ("s2") ("failed") ("x")).2.2.1 (by decide)
  · exact (stage_done_spec [] ("s1") ("s2") ("failed") ("x")).2.2.2.1
      (some (some [])) (some (some (StrMap.setKey [] ("s1") ("done")))) rfl
  · exact (stage_done_spec [] ("s1") ("s2") ("failed") ("x")).2.2.2.2 (by decide)

/-- C8: when the checkpoint file exists but its contents are not
parseable, every read operation raises instead of reporting a fresh
state: RunContext.stage_done raises, the legacy load_checkpoint
raises, and RunContext.mark_stage raises as well. -/
theorem corrupt_checkpoint_raises (stage : String) :
    stage_done (some none) stage
        = Except.error ("json.load: checkpoint contents not parseable")
    ∧ load_checkpoint (some none)
        = Except.error ("json.load: checkpoint contents not parseable")
    ∧ mark_stage (some none) stage ("done")
        = Except.error ("json.load: checkpoint contents not parseable") :=
  ⟨rfl, rfl, rfl⟩

theorem validate_exe_ok_iff (fs : FsOracle) (e : String) :
    validate_exe fs e = Except.ok () ↔ exe_ok fs e = true := by
  unfold validate_exe exe_ok
  cases hab : is_absolute e
  · cases hop : fs.onPath e <;> simp [hab, hop]
  · cases hex : fs.pathExists e <;> simp [hab, hex]

theorem validate_list_ok_iff (fs : FsOracle) (l : List String) :
    validate_list fs l = Except.ok () ↔ ∀ e ∈ l, exe_ok fs e = true := by
  induction l with
  | nil => simp [validate_list]
  | cons hd tl ih =>
      by_cases hh : exe_ok fs hd = true
      · have hv : validate_exe fs hd = Except.ok () :=
          (validate_exe_ok_iff fs hd).mpr hh
        simp [validate_list, hv, ih, hh]
      · cases hveq : validate_exe fs hd with
        | ok u =>
            cases u
            exact absurd ((validate_exe_ok_iff fs hd).mp hveq) hh
        | error msg =>
            simp only [validate_list, hveq]
            constructor
            · intro hc
              exact Except.noConfusion hc
            · intro hall
              have h1 := (validate_exe_ok_iff fs hd).mpr (hall hd (by simp))
              rw [hveq] at h1
              exact Except.noConfusion h1

/-- C7: ToolRunner construction succeeds exactly when every executable
in the configured tool registry is either an existing absolute path or
resolvable on the process search path; otherwise the eager validation
in the constructor raises, before any stage executes. -/
theorem toolrunner_validation_spec (fs : FsOracle) (cfg : ToolCfg) :
    ToolRunner_construct fs cfg = Except.ok cfg ↔
      ∀ exe ∈ configured_exes cfg.tools, exe_ok fs exe = true := by
  unfold ToolRunner_construct
  cases hv : validate_list fs (configured_exes cfg.tools) with
  | ok u =>
      cases u
      constructor
      · intro _
        exact (validate_list_ok_iff fs (configured_exes cfg.tools)).mp hv
      · intro _
        rfl
  | error msg =>
      constructor
      · intro hc
        exact Except.noConfusion hc
      · intro hall
        have hok := (validate_list_ok_iff fs (configured_exes cfg.tools)).mpr hall
        rw [hv] at hok
        exact Except.noConfusion hok

/-- Witness for C7: construction succeeds on a registry whose single
executable resolves on the search path, and fails when nothing
resolves. -/
theorem toolrunner_validation_spec_witness :
    ToolRunner_construct
        (FsOracle.mk (fun _ => false) (fun e => e == ("colmap")))
        (ToolCfg.mk (ExecCfg.mk true false)
          [(("colmap"), ToolEntry.plain ("colmap"))])
      = Except.ok (ToolCfg.mk (ExecCfg.mk true false)
          [(("colmap"), ToolEntry.plain ("colmap"))])
    ∧ ToolRunner_construct
        (FsOracle.mk (fun _ => false) (fun _ => false))
        (ToolCfg.mk (ExecCfg.mk true false)
          [(("colmap"), ToolEntry.plain ("colmap"))])
      ≠ Except.ok (ToolCfg.mk (ExecCfg.mk true false)
          [(("colmap"), ToolEntry.plain ("colmap"))]) := by
  constructor
  · exact (toolrunner_validation_spec
      (FsOracle.mk (fun _ => false) (fun e => e == ("colmap")))
      (ToolCfg.mk (ExecCfg.mk true false)
        [(("colmap"), ToolEntry.plain ("colmap"))])).mpr (by decide)
  · intro hc
    have hall := (toolrunner_validation_spec
      (FsOracle.mk (fun _ => false) (fun _ => false))
      (ToolCfg.mk (ExecCfg.mk true false)
        [(("colmap"), ToolEntry.plain ("colmap"))])).mp hc
    have := hall ("colmap") (by decide)
    simp [exe_ok, is_absolute] at this

/-- C1 (code bug): with the accelerator enabled and
CUDA_VISIBLE_DEVICES absent from the caller environment, the child
process is spawned with CUDA_VISIBLE_DEVICES set to the empty string
(hiding every device) instead of inheriting the environment unchanged;
the accelerator-disabled half of the policy does hold. -/
theorem cuda_env_injected_when_gpu_enabled :
    (ToolRunner_run
        (FsOracle.mk (fun _ => false) (fun e => e == ("colmap")))
        (ToolCfg.mk (ExecCfg.mk true false)
          [(("colmap"), ToolEntry.plain ("colmap"))])
        (fun _ _ => (0, (""))) [(("PATH"), ("/usr/bin"))]
        ("colmap") [] none true).spawned
      = [Spawn.mk [("colmap")]
          [(("PATH"), ("/usr/bin")), (("CUDA_VISIBLE_DEVICES"), (""))] none]
    ∧ (ToolRunner_run
        (FsOracle.mk (fun _ => false) (fun e => e == ("colmap")))
        (ToolCfg.mk (ExecCfg.mk true false)
          [(("colmap"), ToolEntry.plain ("colmap"))])
        (fun _ _ => (0, (""))) [(("PATH"), ("/usr/bin"))]
        ("colmap") [] none true).spawned
      ≠ [Spawn.mk [("colmap")] [(("PATH"), ("/usr/bin"))] none]
    ∧ child_env (ExecCfg.mk true false) [(("PATH"), ("/usr/bin"))]
      ≠ [(("PATH"), ("/usr/bin"))]
    ∧ StrMap.find?
        (child_env (ExecCfg.mk false false) [(("PATH"), ("/usr/bin"))])
        ("CUDA_VISIBLE_DEVICES") = some ("") := by
  refine ⟨by decide, by decide, by decide, by decide⟩

/-- C9: a dry-run execution of a registered, resolvable tool logs the
fully formed command line, spawns no subprocess, and returns the no-op
result None. -/
theorem dry_run_no_spawn (fs : FsOracle) (config : ToolCfg) (sub : Subproc)
    (os_environ : StrMap String) (tool : String) (args : List String)
    (cwd : Option String) (check : Bool) (exe : String)
    (hdry : config.execution.dry_run = true)
    (hres : resolve_executable fs config.tools tool = Except.ok exe) :
    (ToolRunner_run fs config sub os_environ tool args cwd check).spawned = []
    ∧ (ToolRunner_run fs config sub os_environ tool args cwd check).result
        = Except.ok none
    ∧ ("[tool:" ++ tool ++ "] CMD: " ++ String.intercalate (" ") (exe :: args))
        ∈ (ToolRunner_run fs config sub os_environ tool args cwd check).logs := by
  unfold ToolRunner_run
  rw [hres]
  simp [hdry]

/-- Witness for C9: a concrete dry-run invocation spawns nothing and
returns None. -/
theorem dry_run_no_spawn_witness :
    (ToolRunner_run
        (FsOracle.mk (fun _ => false) (fun e => e == ("colmap")))
        (ToolCfg.mk (ExecCfg.mk true true)
          [(("colmap"), ToolEntry.plain ("colmap"))])
        (fun _ _ => (0, (""))) [] ("colmap") [("proj.db")] none true).spawned = []
    ∧ (ToolRunner_run
        (FsOracle.mk (fun _ => false) (fun e => e == ("colmap")))
        (ToolCfg.mk (ExecCfg.mk true true)
          [(("colmap"), ToolEntry.plain ("colmap"))])
        (fun _ _ => (0, (""))) [] ("colmap") [("proj.db")] none true).result
      = Except.ok none := by
  have h := dry_run_no_spawn
    (FsOracle.mk (fun _ => false) (fun e => e == ("colmap")))
    (ToolCfg.mk (ExecCfg.mk true true)
      [(("colmap"), ToolEntry.plain ("colmap"))])
    (fun _ _ => (0, (""))) [] ("colmap") [("proj.db")] none true ("colmap")
    rfl (by decide)
  exact ⟨h.1, h.2.1⟩

/-- C10: with check disabled and dry run off, a resolvable tool always
returns the completed-process result carrying the child exit code and
the captured combined output, raising nothing even on a non-zero
exit. -/
theorem nocheck_returns_exit_code (fs : FsOracle) (config : ToolCfg)
    (sub : Subproc) (os_environ : StrMap String) (tool : String)
    (args : List String) (cwd : Option String) (exe : String)
    (hdry : config.execution.dry_run = false)
    (hres : resolve_executable fs config.tools tool = Except.ok exe) :
    (ToolRunner_run fs config sub os_environ tool args cwd false).result
      = Except.ok (some (ProcResult.mk
          (sub (exe :: args) (child_env config.execution os_environ)).1
          (sub (exe :: args) (child_env config.execution os_environ)).2))
    ∧ (ToolRunner_run fs config sub os_environ tool args cwd false).spawned
      = [Spawn.mk (exe :: args) (child_env config.execution os_environ) cwd] := by
  unfold ToolRunner_run
  rw [hres]
  simp [hdry]

/-- Witness for C10: a child exiting with code 3 yields a normally
returned result carrying exit code 3 and the captured output. -/
theorem nocheck_returns_exit_code_witness :
    (ToolRunner_run
        (FsOracle.mk (fun _ => false) (fun e => e == ("colmap")))
        (ToolCfg.mk (ExecCfg.mk true false)
          [(("colmap"), ToolEntry.plain ("colmap"))])
        (fun _ _ => (3, ("boom"))) [] ("colmap") [] none false).result
      = Except.ok (some (ProcResult.mk 3 ("boom"))) := by
  have h := nocheck_returns_exit_code
    (FsOracle.mk (fun _ => false) (fun e => e == ("colmap")))
    (ToolCfg.mk (ExecCfg.mk true false)
      [(("colmap"), ToolEntry.plain ("colmap"))])
    (fun _ _ => (3, ("boom"))) [] ("colmap") [] none ("colmap")
    rfl (by decide)
  exact h.1

/-- C4: starting a run while another run is active on the manager
raises the active-run error and leaves both the manager state and the
whole filesystem state — including the first run manifest — exactly
as they were. -/
theorem start_run_active_error (rm : RM) (rc : RC)
    (run_id project_root input_path now : String)
    (output_path : Option String) (fs : FS)
    (h : rm.active_run = some rc) :
    RM.start_run rm run_id project_root input_path output_path now fs
      = ((rm, fs), Except.error ("A run is already active")) := by
  unfold RM.start_run
  rw [h]

/-- Witness for C4: a manager with an active run rejects a second
start_run and changes nothing. -/
theorem start_run_active_error_witness :
    RM.start_run
        (RM.mk ("/p/runs") (some (RC.new ("/p/runs") ("run_1"))))
        ("run_2") ("/p") ("/in") none ("t1")
        (FS.mk [("/p/runs/run_1")] [] [] [])
      = (((RM.mk ("/p/runs") (some (RC.new ("/p/runs") ("run_1")))),
          (FS.mk [("/p/runs/run_1")] [] [] [])),
         Except.error ("A run is already active")) :=
  start_run_active_error
    (RM.mk ("/p/runs") (some (RC.new ("/p/runs") ("run_1"))))
    (RC.new ("/p/runs") ("run_1"))
    ("run_2") ("/p") ("/in") ("t1") none
    (FS.mk [("/p/runs/run_1")] [] [] []) rfl

/-- C5: RunContext initialization fails with the duplicate-run error
exactly when the computed run root directory already exists; otherwise
it creates the run root and its logs subdirectory, writes the initial
manifest with status running and the start timestamp, and writes an
empty checkpoint document. -/
theorem initRun_spec (ctx : RC) (project_root input_path now : String) (fs : FS) :
    (ctx.root ∈ fs.dirs →
      RC.initRun ctx project_root input_path now fs
        = Except.error ("Run already exists: " ++ ctx.root))
    ∧ (ctx.root ∉ fs.dirs →
      RC.initRun ctx project_root input_path now fs
        = Except.ok (FS.mk (ctx.root :: ctx.logs :: fs.dirs)
            (StrMap.setKey fs.manifests ctx.manifest
              (Manifest.mk ctx.run_id ("running") now project_root input_path
                ("MARK-2")))
            (StrMap.setKey fs.ckfiles ctx.checkpoints (some []))
            fs.symlinks)) := by
  constructor
  · intro h
    simp [RC.initRun, h]
  · intro h
    simp [RC.initRun, h]

/-- Witness for C5: initializing against an existing run root raises
the duplicate-run error; initializing on a fresh filesystem creates
the directories, the running manifest, and the empty checkpoint. -/
theorem initRun_spec_witness :
    RC.initRun (RC.new ("/p/runs") ("run_1")) ("/p") ("/in") ("t0")
        (FS.mk [("/p/runs/run_1")] [] [] [])
      = Except.error ("Run already exists: /p/runs/run_1")
    ∧ RC.initRun (RC.new ("/p/runs") ("run_1")) ("/p") ("/in") ("t0")
        (FS.mk [] [] [] [])
      = Except.ok (FS.mk
          [("/p/runs/run_1"), ("/p/runs/run_1/logs")]
          [(("/p/runs/run_1/run.json"),
            Manifest.mk ("run_1") ("running") ("t0") ("/p") ("/in") ("MARK-2"))]
          [(("/p/runs/run_1/checkpoints.json"), some [])]
          []) := by
  constructor
  · exact (initRun_spec (RC.new ("/p/runs") ("run_1")) ("/p") ("/in") ("t0")
      (FS.mk [("/p/runs/run_1")] [] [] [])).1 (by decide)
  · exact (initRun_spec (RC.new ("/p/runs") ("run_1")) ("/p") ("/in") ("t0")
      (FS.mk [] [] [] [])).2 (by decide)

theorem run_stages_fail (good : List (String × Option String)) (name msg : String)
    (rest : List (String × StageBeh)) (force : Bool) :
    run_pipeline_stages force
        (List.map (fun g => (g.1, Except.ok g.2)) good
          ++ (name, Except.error msg) :: rest)
      = (List.map (fun g => (g.1, force)) good ++ [(name, force)],
         Except.error ("Pipeline aborted at stage: " ++ name)) := by
  induction good with
  | nil => simp [run_pipeline_stages]
  | cons hd tl ih =>
      obtain ⟨a, b⟩ := hd
      simp [run_pipeline_stages, ih]

theorem run_stages_all_ok (stages : List (String × StageBeh)) (force : Bool)
    (hok : ∀ s ∈ stages, isOkBeh s.2 = true) :
    run_pipeline_stages force stages
      = (List.map (fun s => (s.1, force)) stages, Except.ok ()) := by
  induction stages with
  | nil => simp [run_pipeline_stages]
  | cons hd tl ih =>
      obtain ⟨a, beh⟩ := hd
      have hh : isOkBeh beh = true := hok (a, beh) (by simp)
      cases beh with
      | error msg => simp [isOkBeh] at hh
      | ok r =>
          have iht := ih (fun s hs => hok s (by simp [hs]))
          simp [run_pipeline_stages, iht]

theorem orchestrate_steps_fresh_fail (good : List (String × Option String))
    (name msg : String) (rest : List (String × StageBeh)) (cp : StrMap String)
    (hfresh : ∀ g ∈ good, StrMap.find? cp g.1 = none)
    (hnodup : (List.map Prod.fst good).Nodup)
    (hname : StrMap.find? cp name = none)
    (hnmem : name ∉ List.map Prod.fst good) :
    orchestrate_steps cp
        (List.map (fun g => (g.1, Except.ok g.2)) good
          ++ (name, Except.error msg) :: rest)
      = (List.map Prod.fst good ++ [name],
         cp ++ List.map (fun g => (g.1, (g.2).getD ("done"))) good, true) := by
  induction good generalizing cp with
  | nil => simp [orchestrate_steps, hname]
  | cons hd tl ih =>
      obtain ⟨a, b⟩ := hd
      have ha : StrMap.find? cp a = none := hfresh (a, b) (by simp)
      have hanotin : a ∉ List.map Prod.fst tl := by
        simp only [List.map_cons, List.nodup_cons] at hnodup
        exact hnodup.1
      have hset : StrMap.setKey cp a (b.getD ("done"))
          = cp ++ [(a, b.getD ("done"))] :=
        StrMap.setKey_eq_append_of_none cp a (b.getD ("done")) ha
      have hfresh2 : ∀ g ∈ tl,
          StrMap.find? (cp ++ [(a, b.getD ("done"))]) g.1 = none := by
        intro g hg
        have h1 : StrMap.find? cp g.1 = none := hfresh g (by simp [hg])
        have h2 : g.1 ≠ a := by
          intro hc
          exact hanotin (hc ▸ List.mem_map_of_mem Prod.fst hg)
        rw [StrMap.find?_append_of_none cp [(a, b.getD ("done"))] g.1 h1]
        simp [StrMap.find?, Ne.symm h2]
      have hname2 : StrMap.find? (cp ++ [(a, b.getD ("done"))]) name = none := by
        have hna : name ≠ a := by
          intro hc
          exact hnmem (by simp [hc])
        rw [StrMap.find?_append_of_none cp [(a, b.getD ("done"))] name hname]
        simp [StrMap.find?, Ne.symm hna]
      have hnodup2 : (List.map Prod.fst tl).Nodup := by
        simp only [List.map_cons, List.nodup_cons] at hnodup
        exact hnodup.2
      have hnmem2 : name ∉ List.map Prod.fst tl := by
        intro hc
        exact hnmem (by simp [hc])
      have ihx := ih (cp ++ [(a, b.getD ("done"))]) hfresh2 hnodup2 hname2 hnmem2
      simp [orchestrate_steps, ha, hset, ihx, List.append_assoc]

theorem orchestrate_invoked_filter (stages : List (String × StageBeh))
    (cp : StrMap String)
    (hok : ∀ s ∈ stages, isOkBeh s.2 = true)
    (hnodup : (List.map Prod.fst stages).Nodup) :
    (orchestrate_steps cp stages).1
      = List.map Prod.fst
          (List.filter (fun s => (StrMap.find? cp s.1).isNone) stages) := by
  induction stages generalizing cp with
  | nil => simp [orchestrate_steps]
  | cons hd tl ih =>
      obtain ⟨a, beh⟩ := hd
      have hh : isOkBeh beh = true := hok (a, beh) (by simp)
      have hokt : ∀ s ∈ tl, isOkBeh s.2 = true := fun s hs => hok s (by simp [hs])
      have hnodupt : (List.map Prod.fst tl).Nodup := by
        simp only [List.map_cons, List.nodup_cons] at hnodup
        exact hnodup.2
      have hamem : a ∉ List.map Prod.fst tl := by
        simp only [List.map_cons, List.nodup_cons] at hnodup
        exact hnodup.1
      cases beh with
      | error msg => simp [isOkBeh] at hh
      | ok r =>
          cases hfo : StrMap.find? cp a with
          | some v =>
              simp [orchestrate_steps, hfo, ih cp hokt hnodupt]
          | none =>
              have heq : ∀ s ∈ tl,
                  ((StrMap.find? (StrMap.setKey cp a (r.getD ("done"))) s.1).isNone
                    : Bool)
                  = (StrMap.find? cp s.1).isNone := by
                intro s hs
                have h2 : a ≠ s.1 := by
                  intro hc
                  exact hamem (hc ▸ List.mem_map_of_mem Prod.fst hs)
                rw [StrMap.find?_setKey_ne cp a s.1 (r.getD ("done")) h2]
              have ihx := ih (StrMap.setKey cp a (r.getD ("done"))) hokt hnodupt
              rw [List.filter_ext_mem _ _ tl heq] at ihx
              simp [orchestrate_steps, hfo, ihx]

/-- C2 (amended): when the stages before position k succeed and stage
k raises, neither orchestrator invokes any stage after the failing
one and neither marks the failing stage done.  run_pipeline_from_args
(src/runner.py) propagates by raising the pipeline-aborted error,
while orchestrate_pipeline (src/orches.py) records exactly the
previously completed stages in the checkpoint and then returns
normally, without raising and without touching any run manifest. -/
theorem failfast_amended (good : List (String × Option String))
    (name msg : String) (rest : List (String × StageBeh)) (force : Bool)
    (cp : StrMap String)
    (hfresh : ∀ g ∈ good, StrMap.find? cp g.1 = none)
    (hnodup : (List.map Prod.fst good).Nodup)
    (hname : StrMap.find? cp name = none)
    (hnmem : name ∉ List.map Prod.fst good) :
    run_pipeline_stages force
        (List.map (fun g => (g.1, Except.ok g.2)) good
          ++ (name, Except.error msg) :: rest)
      = (List.map (fun g => (g.1, force)) good ++ [(name, force)],
         Except.error ("Pipeline aborted at stage: " ++ name))
    ∧ orchestrate_steps cp
        (List.map (fun g => (g.1, Except.ok g.2)) good
          ++ (name, Except.error msg) :: rest)
      = (List.map Prod.fst good ++ [name],
         cp ++ List.map (fun g => (g.1, (g.2).getD ("done"))) good, true)
    ∧ orchestrate_pipeline cp
        (List.map (fun g => (g.1, Except.ok g.2)) good
          ++ (name, Except.error msg) :: rest)
      = Except.ok (List.map Prod.fst good ++ [name],
          cp ++ List.map (fun g => (g.1, (g.2).getD ("done"))) good) := by
  have horch := orchestrate_steps_fresh_fail good name msg rest cp
    hfresh hnodup hname hnmem
  refine ⟨run_stages_fail good name msg rest force, horch, ?_⟩
  unfold orchestrate_pipeline
  rw [horch]

/-- Witness for C2 (amended) on stage list S1, S2, S3 with S2 raising:
the runner invokes S1 and S2 only and raises; the orchestrator invokes
S1 and S2 only, checkpoints only S1, and returns normally. -/
theorem failfast_amended_witness :
    run_pipeline_stages false
        [(("S1"), Except.ok none), (("S2"), Except.error ("boom")),
         (("S3"), Except.ok none)]
      = ([(("S1"), false), (("S2"), false)],
         Except.error ("Pipeline aborted at stage: S2"))
    ∧ orchestrate_steps []
        [(("S1"), Except.ok none), (("S2"), Except.error ("boom")),
         (("S3"), Except.ok none)]
      = ([("S1"), ("S2")], [(("S1"), ("done"))], true)
    ∧ orchestrate_pipeline []
        [(("S1"), Except.ok none), (("S2"), Except.error ("boom")),
         (("S3"), Except.ok none)]
      = Except.ok ([("S1"), ("S2")], [(("S1"), ("done"))]) := by
  have h := failfast_amended [(("S1"), none)] ("S2") ("boom")
    [(("S3"), Except.ok none)] false []
    (by intro g hg; rfl) (by decide) rfl (by decide)
  exact h

/-- C2 counterexample: on stage list S1, S2, S3 with S2 raising,
orchestrate_pipeline returns normally with value Ok — the exception is
caught and not propagated, no non-zero exit happens on this path, and
no manifest write occurs anywhere in the function — contradicting the
claim that the orchestrator finalizes the manifest as failed and
re-raises. -/
theorem orchestrate_failure_counterexample :
    orchestrate_pipeline []
        [(("S1"), Except.ok none), (("S2"), Except.error ("boom")),
         (("S3"), Except.ok none)]
      = Except.ok ([("S1"), ("S2")], [(("S1"), ("done"))]) := by
  rfl

/-- C3 (amended): with every stage succeeding, run_pipeline_from_args
invokes every stage function regardless of the force flag and of any
checkpoint contents, merely passing force through to the stage, while
orchestrate_pipeline — which has no force parameter — skips exactly
the stages whose names are keys of the loaded checkpoint. -/
theorem skip_logic_amended (force : Bool) (cp : StrMap String)
    (stages : List (String × StageBeh))
    (hok : ∀ s ∈ stages, isOkBeh s.2 = true)
    (hnodup : (List.map Prod.fst stages).Nodup) :
    (run_pipeline_stages force stages).1
      = List.map (fun s => (s.1, force)) stages
    ∧ (orchestrate_steps cp stages).1
      = List.map Prod.fst
          (List.filter (fun s => (StrMap.find? cp s.1).isNone) stages) := by
  constructor
  · rw [run_stages_all_ok stages force hok]
  · exact orchestrate_invoked_filter stages cp hok hnodup

/-- Witness for C3 (amended): with checkpoint marking init done, the
runner still invokes both stages with force false, and the
orchestrator invokes only the stage missing from the checkpoint. -/
theorem skip_logic_amended_witness :
    (run_pipeline_stages false
        [(("init"), Except.ok none), (("input"), Except.ok none)]).1
      = [(("init"), false), (("input"), false)]
    ∧ (orchestrate_steps [(("init"), ("done"))]
        [(("init"), Except.ok none), (("input"), Except.ok none)]).1
      = [("input")] := by
  have h := skip_logic_amended false [(("init"), ("done"))]
    [(("init"), Except.ok none), (("input"), Except.ok none)]
    (by intro s hs; cases hs with
        | head => rfl
        | tail _ hs2 => cases hs2 with
          | head => rfl
          | tail _ hs3 => cases hs3)
    (by decide)
  exact h

/-- C3 counterexample: the runner orchestrator invokes the init stage
with force false even though the checkpoint records init as done — the
claimed orchestrator-level skip does not exist in
run_pipeline_from_args. -/
theorem runner_skip_counterexample :
    (("init"), false) ∈ (run_pipeline_stages false
        [(("init"), Except.ok none)]).1
    ∧ StrMap.find? [(("init"), ("done"))] ("init") = some ("done") := by
  constructor
  · simp [run_pipeline_stages]
  · rfl

end Photogram
